import Mathlib

/-!
Verification development for the Sanchalan GRC Compliance Knowledge Index and
Gap Analysis Engine.  The backend core components (Chunker, Retriever,
Gap Evaluator, Answer Composer, Gap Lifecycle Manager) are modelled from the
design specification; the gap-analysis summary computation is embedded from
the frontend source file src/frontend/src/pages/GapAnalysis.jsx.

Similarity, coverage and confidence scores, which the spec normalizes to the
real interval [0, 1], are represented throughout in hundredths as natural
numbers 0..100 (so a similarity of 0.9 is the score 90, and the spec's
thresholds 0.8 / 0.5 / 0.35 / 0.2 are the scores 80 / 50 / 35 / 20).
-/

namespace Sanchalan

/-- Compliance status of a Gap Verdict, per the data model section of the spec. -/
inductive Status
  | COMPLIANT
  | PARTIAL
  | GAP
deriving DecidableEq, Repr

/-- Severity of a Gap Verdict, per the data model section of the spec. -/
inductive Severity
  | LOW
  | MEDIUM
  | HIGH
  | CRITICAL
deriving DecidableEq, Repr

/-- Tri-state sufficiency classification produced by the external reasoning
step, per the design notes: judge returns sufficient / partially sufficient /
insufficient. -/
inductive Sufficiency
  | sufficient
  | partlySufficient
  | insufficient
deriving DecidableEq, Repr

/-- Result of the external reasoning step: a tri-state sufficiency plus a
natural-language rationale. -/
structure Judgment where
  sufficiency : Sufficiency
  rationale : String
deriving DecidableEq, Repr

/-- Control reference data: id, framework id, code, name, description, plus
the configured weight/criticality used by the deterministic risk-score rule. -/
structure Control where
  id : Nat
  frameworkId : Nat
  code : String
  name : String
  description : String
  weight : Nat
deriving DecidableEq, Repr

/-- Evidence Item, transient retrieval output: chunk text, source document
id/title, similarity score (in hundredths), rank. -/
structure EvidenceItem where
  chunkText : String
  sourceDocId : Nat
  sourceTitle : String
  similarity : Nat
  rank : Nat
deriving DecidableEq, Repr

/-- Gap Verdict: control id, status, severity, risk score (0-100), reason
text, evidence references. -/
structure GapVerdict where
  controlId : Nat
  status : Status
  severity : Severity
  riskScore : Nat
  reason : String
  evidenceRefs : List Nat
deriving DecidableEq, Repr

/-- Modelled from the spec: the aggregate coverage score of an evidence set is
the top item's similarity score (section 4.5 step 2 gives the top item's score
as the aggregate); the empty set has coverage 0. -/
def coverageScore (items : List EvidenceItem) : Nat :=
  (items.map (fun it => it.similarity)).foldr max 0

/-- Modelled from the spec: base risk contribution of each severity level,
used by the deterministic risk-score rule of section 4.5 step 4. -/
def severityBase : Severity → Nat
  | Severity.LOW => 25
  | Severity.MEDIUM => 50
  | Severity.HIGH => 75
  | Severity.CRITICAL => 100

/-- Modelled from the spec: risk score is a deterministic function of severity
and the control's own configured weight/criticality (section 4.5 step 4),
capped at 100. -/
def riskScoreOf (sev : Severity) (weight : Nat) : Nat :=
  min 100 (severityBase sev * weight / 100)

/-- Modelled from the spec: joint mapping of the sufficiency judgment and the
aggregate coverage score to status and severity by fixed thresholds
(section 4.5 step 3): coverage at least 0.8 and judged sufficient gives
COMPLIANT; coverage at least 0.5 or judged partially sufficient gives
PARTIAL with MEDIUM severity; otherwise GAP with severity scaled inversely to
coverage, bottoming out at CRITICAL below the low-coverage floor 0.2. -/
def classify (j : Sufficiency) (cov : Nat) : Status × Severity :=
  if 80 ≤ cov ∧ j = Sufficiency.sufficient then
    (Status.COMPLIANT, Severity.LOW)
  else if 50 ≤ cov ∨ j = Sufficiency.partlySufficient then
    (Status.PARTIAL, Severity.MEDIUM)
  else if cov < 20 then
    (Status.GAP, Severity.CRITICAL)
  else if cov < 35 then
    (Status.GAP, Severity.HIGH)
  else
    (Status.GAP, Severity.MEDIUM)

/-- The fixed reason text returned when no evidence at all was retrieved for a
control (section 4.5 step 1). -/
def noEvidenceReason : String := "no evidence found for control."

/-- Modelled from the spec: the Gap Evaluator (section 4.5).  With no evidence
it returns GAP / CRITICAL / risk 100 with the fixed no-evidence reason.
Otherwise it computes the aggregate coverage score, submits the control
description plus the evidence texts to the external reasoning step `judge`,
maps judgment and coverage to status and severity by the fixed thresholds,
derives the risk score deterministically from severity and the control's
weight, and attaches the evidence references used. -/
def evaluate (judge : String → List String → Judgment)
    (c : Control) (items : List EvidenceItem) : GapVerdict :=
  if items.isEmpty then
    { controlId := c.id
      status := Status.GAP
      severity := Severity.CRITICAL
      riskScore := 100
      reason := noEvidenceReason
      evidenceRefs := [] }
  else
    let cov := coverageScore items
    let jd := judge c.description (items.map (fun it => it.chunkText))
    let sc := classify jd.sufficiency cov
    { controlId := c.id
      status := sc.1
      severity := sc.2
      riskScore := riskScoreOf sc.2 c.weight
      reason := jd.rationale
      evidenceRefs := items.map (fun it => it.sourceDocId) }

/-- Rank of a severity level, increasing with severity. -/
def severityRank : Severity → Nat
  | Severity.LOW => 0
  | Severity.MEDIUM => 1
  | Severity.HIGH => 2
  | Severity.CRITICAL => 3

/-- Total severity ordering on verdicts: a COMPLIANT verdict is least severe,
then PARTIAL, then GAP verdicts ordered by their severity level. -/
def verdictRank (v : GapVerdict) : Nat :=
  match v.status with
  | Status.COMPLIANT => 0
  | Status.PARTIAL => 1
  | Status.GAP => 2 + severityRank v.severity

/-- Severity ordering of a status-severity pair, matching `verdictRank`. -/
def pairRank (p : Status × Severity) : Nat :=
  match p.1 with
  | Status.COMPLIANT => 0
  | Status.PARTIAL => 1
  | Status.GAP => 2 + severityRank p.2

/-- Scope of a retrieval or indexing operation: the tenant boundary plus an
optional framework restriction. -/
structure Scope where
  tenantId : Nat
  frameworkId : Option Nat
deriving DecidableEq, Repr

/-- Entry of the Vector Index: vector, chunk text and metadata (chunk id,
owning document id and title, tenant and framework namespace). -/
structure IndexedChunk where
  chunkId : Nat
  docId : Nat
  docTitle : String
  tenantId : Nat
  frameworkId : Option Nat
  text : String
  vector : List Int
deriving DecidableEq, Repr

/-- Retrieval configuration: the configured minimum-similarity floor below
which items are dropped entirely (section 4.4). -/
structure RetrievalConfig where
  minSimilarity : Nat
deriving DecidableEq, Repr

/-- Modelled from the spec: the Vector Index filter — an entry matches a scope
when it belongs to the scope's tenant and, when the scope fixes a framework,
to that framework (section 4.3). -/
def matchesScope (s : Scope) (e : IndexedChunk) : Bool :=
  e.tenantId == s.tenantId &&
    (match s.frameworkId with
     | none => true
     | some f => e.frameworkId == some f)

/-- Builds the transient Evidence Item for an index entry and its similarity
score; the rank is assigned afterwards from the final sorted position. -/
def mkEvidence (e : IndexedChunk) (score : Nat) : EvidenceItem :=
  { chunkText := e.text
    sourceDocId := e.docId
    sourceTitle := e.docTitle
    similarity := score
    rank := 0 }

/-- Inserts an evidence item into a list that is sorted descending by
similarity, keeping it sorted. -/
def insertDesc (p : EvidenceItem) : List EvidenceItem → List EvidenceItem
  | [] => [p]
  | q :: qs =>
    if q.similarity ≤ p.similarity then p :: q :: qs else q :: insertDesc p qs

/-- Insertion sort descending by similarity score. -/
def sortDesc : List EvidenceItem → List EvidenceItem
  | [] => []
  | p :: ps => insertDesc p (sortDesc ps)

/-- Assigns ranks 0, 1, 2, ... to the final sorted evidence list. -/
def assignRanks : Nat → List EvidenceItem → List EvidenceItem
  | _, [] => []
  | n, x :: xs => { x with rank := n } :: assignRanks (n + 1) xs

/-- Modelled from the spec: the Retriever (section 4.4).  Embeds the query,
queries the Vector Index restricted to the scope, scores each in-scope entry,
drops entirely every item scoring below the configured minimum-similarity
floor, sorts the rest descending by score and returns the top k as ranked
Evidence Items.  The embedding model and the similarity function of the
external vector store are parameters. -/
def retrieve (embed : String → List Int) (sim : List Int → List Int → Nat)
    (index : List IndexedChunk) (cfg : RetrievalConfig)
    (queryText : String) (scope : Scope) (k : Nat) : List EvidenceItem :=
  let qv := embed queryText
  let inScope := index.filter (fun e => matchesScope scope e)
  let scored := inScope.map (fun e => mkEvidence e (sim qv e.vector))
  let kept := scored.filter (fun it => cfg.minSimilarity ≤ it.similarity)
  assignRanks 0 ((sortDesc kept).take k)

/-- Modelled from the spec: for control-based retrieval the query text is a
composed string of the control's code, name and description (section 4.4). -/
def controlQueryText (c : Control) : String :=
  c.code ++ " " ++ c.name ++ " " ++ c.description

/-- A cited source of a chat answer: document title and similarity score. -/
structure SourceRef where
  title : String
  score : Nat
deriving DecidableEq, Repr

/-- A chat answer: answer text, cited source list, confidence (0-100). -/
structure ChatAnswer where
  answer : String
  sources : List SourceRef
  confidence : Nat
deriving DecidableEq, Repr

/-- The fixed insufficient-information answer text returned when retrieval
finds no evidence (section 4.6). -/
def insufficientInfoAnswer : String :=
  "Insufficient information: no relevant evidence was found in the indexed documents."

/-- Number of evidence items requested per chat query. -/
def defaultChatK : Nat := 5

/-- Modelled from the spec: confidence is derived from the same coverage
signal as the Gap Evaluator uses (section 4.6). -/
def confidenceFrom (items : List EvidenceItem) : Nat :=
  coverageScore items

/-- Modelled from the spec: the Answer Composer (section 4.6).  Retrieves
evidence via the Retriever; if retrieval returns nothing it skips generation
and returns the fixed insufficient-information answer with empty sources and
zero confidence; otherwise it asks the external generation step to answer
from the retrieved texts and cites the sources with a coverage-derived
confidence. -/
def answer (embed : String → List Int) (sim : List Int → List Int → Nat)
    (index : List IndexedChunk) (cfg : RetrievalConfig)
    (generate : String → List String → String)
    (queryText : String) (scope : Scope) : ChatAnswer :=
  let ev := retrieve embed sim index cfg queryText scope defaultChatK
  if ev.isEmpty then
    { answer := insufficientInfoAnswer, sources := [], confidence := 0 }
  else
    { answer := generate queryText (ev.map (fun it => it.chunkText))
      sources := ev.map (fun it => { title := it.sourceTitle, score := it.similarity })
      confidence := confidenceFrom ev }

/-- Remediation workflow status of a persisted Gap record (independent of the
verdict status; this is a workflow label, not a re-evaluation result). -/
inductive WorkflowStatus
  | identified
  | in_remediation
  | remediated
  | verified
  | closed
deriving DecidableEq, Repr

/-- Persisted Gap record: projection of a non-compliant verdict, tracked
through the remediation workflow.  The `flagged` bit records that a later
automated re-evaluation reported the control COMPLIANT (flag for human
confirmation rather than silent auto-close, section 4.7). -/
structure Gap where
  id : Nat
  controlId : Nat
  title : String
  description : String
  severity : Severity
  riskScore : Nat
  status : WorkflowStatus
  flagged : Bool
deriving DecidableEq, Repr

/-- A Gap is open while its workflow has not reached `closed`. -/
def isOpen (g : Gap) : Bool :=
  g.status != WorkflowStatus.closed

/-- Bool predicate selecting the open Gaps of one control. -/
def openFor (cid : Nat) (g : Gap) : Bool :=
  isOpen g && g.controlId == cid

/-- Number of open Gaps recorded for a control. -/
def countOpenFor (st : List Gap) (cid : Nat) : Nat :=
  st.countP (openFor cid)

/-- The fresh Gap record created for a newly non-compliant control. -/
def newGapOf (nextId : Nat) (v : GapVerdict) : Gap :=
  { id := nextId
    controlId := v.controlId
    title := "Gap for control"
    description := v.reason
    severity := v.severity
    riskScore := v.riskScore
    status := WorkflowStatus.identified
    flagged := false }

/-- Modelled from the spec: the Gap Lifecycle Manager's persistence of a fresh
verdict (section 4.7).  When the control already has an open Gap, no new Gap
is created: a non-COMPLIANT verdict refreshes the open Gap's severity, risk
score and reason, leaving the workflow status untouched, while a COMPLIANT
verdict only flags the open Gap for human confirmation.  When no open Gap
exists, a non-COMPLIANT verdict creates exactly one new Gap in state
`identified`; a COMPLIANT verdict creates nothing.  Returns the new Gap list
together with the next fresh id. -/
def persistVerdict (st : List Gap) (nextId : Nat) (v : GapVerdict) :
    List Gap × Nat :=
  if st.any (openFor v.controlId) then
    if v.status == Status.COMPLIANT then
      (st.map (fun g => if openFor v.controlId g then { g with flagged := true } else g),
       nextId)
    else
      (st.map (fun g =>
          if openFor v.controlId g then
            { g with severity := v.severity, riskScore := v.riskScore,
                     description := v.reason }
          else g),
       nextId)
  else
    if v.status == Status.COMPLIANT then (st, nextId)
    else (st ++ [newGapOf nextId v], nextId + 1)

/-- One row of the gap-analysis batch response: control code, status,
severity, risk score, reason (section 6). -/
structure ControlResult where
  control_code : String
  status : Status
  severity : Severity
  risk_score : Nat
  reason : String
deriving DecidableEq, Repr

/-- Response of the gap-analysis/run batch endpoint: framework name, the
per-control results, and an optional warning enumerating failed items. -/
structure BatchResponse where
  framework : String
  results : List ControlResult
  warning : Option String
deriving DecidableEq, Repr

/-- Projects a control's verdict into a batch response row. -/
def toControlResult (c : Control) (v : GapVerdict) : ControlResult :=
  { control_code := c.code
    status := v.status
    severity := v.severity
    risk_score := v.riskScore
    reason := v.reason }

/-- Warning text enumerating the controls whose evaluation failed. -/
def warningText (codes : List String) : String :=
  "Evaluation failed for controls: " ++ String.intercalate ", " codes

/-- Modelled from the spec: the gap-analysis/run batch endpoint (sections 6
and 7).  Per-control failures are isolated: the successful per-control
results are returned together, and when any control's evaluation failed a
warning field enumerates the failed items instead of the whole run erroring.
The fallible per-control evaluation is the parameter `evalOne`. -/
def runGapAnalysis (evalOne : Control → Option GapVerdict)
    (frameworkName : String) (controls : List Control) : BatchResponse :=
  let ok := controls.filterMap (fun c => (evalOne c).map (toControlResult c))
  let failed := (controls.filter (fun c => (evalOne c).isNone)).map (fun c => c.code)
  { framework := frameworkName
    results := ok
    warning := if failed.isEmpty then none else some (warningText failed) }

/-- Embedded from src/frontend/src/pages/GapAnalysis.jsx line 146: the warning
card is rendered when `results.warning` is truthy, i.e. a present, non-empty
string. -/
def showWarningCard (w : Option String) : Bool :=
  match w with
  | none => false
  | some s => s != ""

/-- Characters treated as sentence-ending punctuation by the Chunker. -/
def isSentenceEnd (c : Char) : Bool :=
  c == '.' || c == '!' || c == '?'

/-- Look-ahead window (in characters) within which the Chunker prefers a
sentence boundary over a hard cut. -/
def lookAheadWindow : Nat := 30

/-- Greatest position i with lo ≤ i < hi holding a sentence-ending character,
if any. -/
def lastSentenceEnd (text : List Char) (lo hi : Nat) : Option Nat :=
  ((List.range hi).filter
      (fun i => lo ≤ i && isSentenceEnd (text.getD i ' '))).getLast?

/-- Modelled from the spec: end position of the chunk starting at `start`
(section 4.1).  The hard cut is `start + size` (or the end of the text); when
a sentence boundary exists within the look-ahead window before the hard cut,
the chunk ends just after that boundary instead of splitting mid-sentence;
otherwise it falls back to the hard cut. -/
def chunkEnd (text : List Char) (start size : Nat) : Nat :=
  let hard := min (start + size) text.length
  if hard = text.length then hard
  else
    match lastSentenceEnd text (hard - lookAheadWindow) hard with
    | some i => max (i + 1) (start + 1)
    | none => hard

/-- Modelled from the spec: recursion of the Chunker over the text, producing
the ordered chunk boundaries as half-open position intervals.  Each chunk is
at most `size` characters; each chunk after the first starts `overlap`
characters inside its predecessor (section 4.1).  The fuel argument bounds the
recursion; `chunkBoundaries` supplies enough fuel for the whole text. -/
def chunkFrom (text : List Char) (size overlap : Nat) :
    Nat → Nat → List (Nat × Nat)
  | 0, _ => []
  | fuel + 1, start =>
    if start < text.length then
      let e := max (chunkEnd text start size) (start + 1)
      if e < text.length then
        (start, e) :: chunkFrom text size overlap fuel (max (e - overlap) (start + 1))
      else
        [(start, text.length)]
    else []

/-- Modelled from the spec: the Chunker's boundary computation (section 4.1):
the ordered sequence of chunk boundaries for a text under a fixed chunk size
and overlap parameter setting. -/
def chunkBoundaries (text : List Char) (size overlap : Nat) : List (Nat × Nat) :=
  chunkFrom text size overlap (text.length + 1) 0

/-- Modelled from the spec: the Chunker (section 4.1).  Fails with
ExtractionEmptyError when the input text is empty or whitespace-only;
otherwise returns the chunk boundaries. -/
def chunkText (text : String) (size overlap : Nat) :
    Except String (List (Nat × Nat)) :=
  if text.data.all (fun c => c == ' ' || c == '\n' || c == '\t' || c == '\r') then
    Except.error "ExtractionEmptyError"
  else
    Except.ok (chunkBoundaries text.data size overlap)

/-- One row of the gap-analysis response as the frontend reads it from JSON
(src/frontend/src/pages/GapAnalysis.jsx); every field may be absent. -/
structure ResultRow where
  control_code : Option String
  status : Option String
  severity : Option String
  risk_score : Option Nat
  reason : Option String
deriving DecidableEq, Repr

/-- Per-framework block of a multi-framework gap-analysis response. -/
structure FrameworkBlock where
  framework : Option String
  results : Option (List ResultRow)
deriving DecidableEq, Repr

/-- The gap-analysis response object as the frontend reads it; every field
the summary code of GapAnalysis.jsx accesses, each possibly absent. -/
structure GapAnalysisResponse where
  total_controls : Option Nat
  gaps_identified : Option Nat
  total_gaps : Option Nat
  framework : Option String
  results : Option (List ResultRow)
  frameworks : Option (List FrameworkBlock)
  warning : Option String
  message : Option String
deriving DecidableEq, Repr

/-- JavaScript numeric read with `|| 0` default: an absent field reads as 0. -/
def jsNum : Option Nat → Nat
  | none => 0
  | some n => n

/-- JavaScript `a || b` on numbers: 0 is falsy and falls through to `b`. -/
def jsOrNat (a b : Nat) : Nat :=
  if a == 0 then b else a

/-- JavaScript truthiness of a string field: present and non-empty. -/
def truthyStr : Option String → Bool
  | none => false
  | some s => s != ""

/-- The frontend's GAP test from GapAnalysis.jsx line 185:
`r.status === 'GAP'` (strict equality against the exact string). -/
def rowIsGap (r : ResultRow) : Bool :=
  r.status == some "GAP"

/-- The three summary cards of the Analysis Summary panel: Total Controls
Analyzed, Gaps Identified, Compliant Controls.  The compliant count is the
JavaScript subtraction, which can go negative, hence an integer. -/
structure SummaryCards where
  totalControls : Nat
  gapsIdentified : Nat
  compliantControls : Int
deriving DecidableEq, Repr

/-- Embedded from GapAnalysis.jsx lines 173-178 and 213-223: the list of
framework blocks the summary counts over — the single-framework shape when
`results.framework` and `results.results` are truthy, else the
`results.frameworks` array, else nothing. -/
def frameworksToCount (r : GapAnalysisResponse) : List FrameworkBlock :=
  if truthyStr r.framework && r.results.isSome then
    [{ framework := r.framework, results := r.results }]
  else
    match r.frameworks with
    | some fs => fs
    | none => []

/-- Embedded from GapAnalysis.jsx lines 166-189: the Analysis Summary
computation.  Reads `total_controls` and `gaps_identified || total_gaps` with
`|| 0` defaults; when either reads 0 it recomputes both totals from the
result rows, counting as gaps exactly the rows whose status is the string
GAP; Compliant Controls is always total minus gaps. -/
def computeSummary (r : GapAnalysisResponse) : SummaryCards :=
  let totalControls0 := jsNum r.total_controls
  let gapsIdentified0 := jsOrNat (jsNum r.gaps_identified) (jsNum r.total_gaps)
  if totalControls0 == 0 || gapsIdentified0 == 0 then
    let fws := frameworksToCount r
    let totalControls := (fws.map (fun fw => (fw.results.getD []).length)).sum
    let gapsIdentified :=
      (fws.map (fun fw => ((fw.results.getD []).filter rowIsGap).length)).sum
    { totalControls := totalControls
      gapsIdentified := gapsIdentified
      compliantControls := (totalControls : Int) - (gapsIdentified : Int) }
  else
    { totalControls := totalControls0
      gapsIdentified := gapsIdentified0
      compliantControls := (totalControls0 : Int) - (gapsIdentified0 : Int) }

/-- All result rows the summary counts over, across the counted frameworks. -/
def countedRows (r : GapAnalysisResponse) : List ResultRow :=
  ((frameworksToCount r).map (fun fw => fw.results.getD [])).flatten

/-! Helper lemmas. -/

/-- Every verdict rank is at most 5, the rank of a CRITICAL GAP. -/
theorem verdictRank_le_five (v : GapVerdict) : verdictRank v ≤ 5 := by
  cases h : v.status <;> cases hs : v.severity <;>
    simp [verdictRank, severityRank, h, hs]

/-- On nonempty evidence the evaluator's verdict ranks exactly as the
classification of the judgment and the coverage score. -/
theorem verdictRank_evaluate_cons (judge : String → List String → Judgment)
    (c : Control) (a : EvidenceItem) (as : List EvidenceItem) :
    verdictRank (evaluate judge c (a :: as)) =
      pairRank (classify
        (judge c.description ((a :: as).map (fun it => it.chunkText))).sufficiency
        (coverageScore (a :: as))) := by
  rfl

/-- For a fixed sufficiency judgment, higher coverage never classifies to a
more severe status-severity pair. -/
theorem pairRank_classify_antitone (j : Sufficiency) (c1 c2 : Nat)
    (h : c2 ≤ c1) :
    pairRank (classify j c1) ≤ pairRank (classify j c2) := by
  cases j <;> simp [classify] <;> split_ifs <;>
    simp_all [pairRank, severityRank] <;> omega

/-- Membership in an ordered insertion is membership in the inserted element
or the original list. -/
theorem mem_insertDesc (x p : EvidenceItem) (l : List EvidenceItem) :
    x ∈ insertDesc p l ↔ x = p ∨ x ∈ l := by
  induction l with
  | nil => simp [insertDesc]
  | cons q qs ih =>
    by_cases h : q.similarity ≤ p.similarity
    · simp [insertDesc, h]
    · simp [insertDesc, h, ih]
      tauto

/-- Sorting by descending similarity preserves membership. -/
theorem mem_sortDesc (x : EvidenceItem) (l : List EvidenceItem) :
    x ∈ sortDesc l ↔ x ∈ l := by
  induction l with
  | nil => simp [sortDesc]
  | cons p ps ih => simp [sortDesc, mem_insertDesc, ih]

/-- Every item of the rank-assigned list agrees with an item of the input
list on every field other than the rank. -/
theorem mem_assignRanks (x : EvidenceItem) :
    ∀ (n : Nat) (l : List EvidenceItem), x ∈ assignRanks n l →
      ∃ y ∈ l, x.similarity = y.similarity ∧ x.sourceDocId = y.sourceDocId ∧
        x.chunkText = y.chunkText ∧ x.sourceTitle = y.sourceTitle := by
  intro n l
  induction l generalizing n with
  | nil => intro h; simp [assignRanks] at h
  | cons y ys ih =>
    intro h
    simp only [assignRanks, List.mem_cons] at h
    cases h with
    | inl h => exact ⟨y, List.mem_cons_self y ys, by simp [h]⟩
    | inr h =>
      obtain ⟨z, hz, hfields⟩ := ih (n + 1) h
      exact ⟨z, List.mem_cons_of_mem y hz, hfields⟩

/-- Soundness of the Retriever: every returned Evidence Item scores at least
the configured floor and originates from an index entry matching the scope. -/
theorem retrieve_mem_spec (embed : String → List Int)
    (sim : List Int → List Int → Nat) (index : List IndexedChunk)
    (cfg : RetrievalConfig) (queryText : String) (scope : Scope) (k : Nat)
    (item : EvidenceItem)
    (h : item ∈ retrieve embed sim index cfg queryText scope k) :
    cfg.minSimilarity ≤ item.similarity ∧
    ∃ e ∈ index, matchesScope scope e = true ∧ item.sourceDocId = e.docId := by
  unfold retrieve at h
  obtain ⟨y, hy, hsim, hdoc, -, -⟩ := mem_assignRanks item _ _ h
  have hy2 : y ∈ sortDesc (((index.filter (fun e => matchesScope scope e)).map
      (fun e => mkEvidence e (sim (embed queryText) e.vector))).filter
        (fun it => cfg.minSimilarity ≤ it.similarity)) :=
    List.mem_of_mem_take hy
  rw [mem_sortDesc] at hy2
  obtain ⟨hy3, hpred⟩ := List.mem_filter.mp hy2
  obtain ⟨e, he, hmk⟩ := List.mem_map.mp hy3
  obtain ⟨hein, hescope⟩ := List.mem_filter.mp he
  constructor
  · rw [hsim]
    exact of_decide_eq_true hpred
  · refine ⟨e, hein, hescope, ?_⟩
    rw [hdoc, ← hmk]
    rfl

/-! Claim theorems. -/

/-- Claim C1: for every control and every external reasoning step, calling
the Gap Evaluator with an empty evidence list returns a verdict with status
GAP, severity CRITICAL, risk score 100, and the reason text
"no evidence found for control.". -/
theorem evaluate_empty_evidence_verdict
    (judge : String → List String → Judgment) (c : Control) :
    (evaluate judge c []).status = Status.GAP ∧
    (evaluate judge c []).severity = Severity.CRITICAL ∧
    (evaluate judge c []).riskScore = 100 ∧
    (evaluate judge c []).reason = "no evidence found for control." := by
  refine ⟨rfl, rfl, rfl, rfl⟩

/-- Claim C2: the Gap Evaluator maps sufficiency and coverage to status by
fixed thresholds: aggregate coverage at least 0.8 (score 80) together with a
sufficient judgment yields status COMPLIANT; in particular one evidence item
at similarity 0.9 judged sufficient yields COMPLIANT. -/
theorem evaluate_compliant_of_sufficient_coverage
    (judge : String → List String → Judgment) (c : Control)
    (items : List EvidenceItem)
    (hne : items ≠ [])
    (hj : (judge c.description (items.map (fun it => it.chunkText))).sufficiency
        = Sufficiency.sufficient)
    (hcov : 80 ≤ coverageScore items) :
    (evaluate judge c items).status = Status.COMPLIANT := by
  cases items with
  | nil => exact absurd rfl hne
  | cons a as =>
    have hj' := hj
    simp only [List.map_cons] at hj'
    simp only [evaluate, List.isEmpty_cons, Bool.false_eq_true, if_false]
    simp [classify, hj', hcov]

/-- Witness for claim C2: a control with one evidence item at similarity 0.9
judged sufficient evaluates to COMPLIANT. -/
theorem evaluate_compliant_of_sufficient_coverage_witness :
    ([⟨"passwords are rotated", 7, "Password Policy", 90, 0⟩] :
        List EvidenceItem) ≠ [] ∧
    80 ≤ coverageScore [⟨"passwords are rotated", 7, "Password Policy", 90, 0⟩] ∧
    (evaluate (fun _ _ => ⟨Sufficiency.sufficient, "covers the control"⟩)
        ⟨1, 1, "A.5.1", "Policies for information security", "desc", 100⟩
        [⟨"passwords are rotated", 7, "Password Policy", 90, 0⟩]).status =
      Status.COMPLIANT := by
  refine ⟨by decide, by decide, ?_⟩
  exact evaluate_compliant_of_sufficient_coverage
    (fun _ _ => ⟨Sufficiency.sufficient, "covers the control"⟩)
    ⟨1, 1, "A.5.1", "Policies for information security", "desc", 100⟩
    [⟨"passwords are rotated", 7, "Password Policy", 90, 0⟩]
    (by decide) rfl (by decide)

/-- Claim C3: for a fixed control and a fixed sufficiency judgment, an
evidence set with strictly higher aggregate coverage score never produces a
more severe verdict than a lower-coverage evidence set. -/
theorem evaluate_monotone_in_coverage
    (judge : String → List String → Judgment) (c : Control)
    (items1 items2 : List EvidenceItem)
    (hj : (judge c.description (items1.map (fun it => it.chunkText))).sufficiency
        = (judge c.description (items2.map (fun it => it.chunkText))).sufficiency)
    (hcov : coverageScore items2 < coverageScore items1) :
    verdictRank (evaluate judge c items1) ≤ verdictRank (evaluate judge c items2) := by
  cases items1 with
  | nil =>
    simp [coverageScore] at hcov
  | cons a1 as1 =>
    cases items2 with
    | nil =>
      calc verdictRank (evaluate judge c (a1 :: as1)) ≤ 5 := verdictRank_le_five _
        _ = verdictRank (evaluate judge c []) := by rfl
    | cons a2 as2 =>
      rw [verdictRank_evaluate_cons, verdictRank_evaluate_cons, hj]
      exact pairRank_classify_antitone _ _ _ (Nat.le_of_lt hcov)

/-- Witness for claim C3: a singleton evidence set at similarity 0.6 ranks no
more severely than one at similarity 0.3 under the same judgment. -/
theorem evaluate_monotone_in_coverage_witness :
    coverageScore [⟨"weak evidence", 8, "doc", 30, 0⟩] <
      coverageScore [⟨"good evidence", 7, "doc", 60, 0⟩] ∧
    verdictRank (evaluate (fun _ _ => ⟨Sufficiency.insufficient, "thin"⟩)
        ⟨1, 1, "A.5.1", "n", "desc", 100⟩ [⟨"good evidence", 7, "doc", 60, 0⟩]) ≤
      verdictRank (evaluate (fun _ _ => ⟨Sufficiency.insufficient, "thin"⟩)
        ⟨1, 1, "A.5.1", "n", "desc", 100⟩ [⟨"weak evidence", 8, "doc", 30, 0⟩]) := by
  refine ⟨by decide, ?_⟩
  exact evaluate_monotone_in_coverage
    (fun _ _ => ⟨Sufficiency.insufficient, "thin"⟩)
    ⟨1, 1, "A.5.1", "n", "desc", 100⟩
    [⟨"good evidence", 7, "doc", 60, 0⟩]
    [⟨"weak evidence", 8, "doc", 30, 0⟩]
    rfl (by decide)

/-- Claim C4: for every query text, scope and k, every Evidence Item returned
by retrieve has a similarity score at least the configured minimum-similarity
floor; items scoring below the floor are never returned. -/
theorem retrieve_respects_similarity_floor (embed : String → List Int)
    (sim : List Int → List Int → Nat) (index : List IndexedChunk)
    (cfg : RetrievalConfig) (queryText : String) (scope : Scope) (k : Nat)
    (item : EvidenceItem)
    (h : item ∈ retrieve embed sim index cfg queryText scope k) :
    cfg.minSimilarity ≤ item.similarity :=
  (retrieve_mem_spec embed sim index cfg queryText scope k item h).1

/-- Witness for claim C4: a concrete one-entry index whose single retrieved
item scores 90, above the floor 50. -/
theorem retrieve_respects_similarity_floor_witness :
    (⟨"password text", 7, "Policy doc", 90, 0⟩ : EvidenceItem) ∈
      retrieve (fun _ => [1]) (fun _ _ => 90)
        [⟨1, 7, "Policy doc", 1, none, "password text", [1]⟩] ⟨50⟩
        "password policy" ⟨1, none⟩ 5 ∧
    (⟨50⟩ : RetrievalConfig).minSimilarity ≤
      (⟨"password text", 7, "Policy doc", 90, 0⟩ : EvidenceItem).similarity := by
  refine ⟨by decide, ?_⟩
  exact retrieve_respects_similarity_floor (fun _ => [1]) (fun _ _ => 90)
    [⟨1, 7, "Policy doc", 1, none, "password text", [1]⟩] ⟨50⟩
    "password policy" ⟨1, none⟩ 5
    ⟨"password text", 7, "Policy doc", 90, 0⟩ (by decide)

/-- Claim C5: whenever retrieval returns an empty evidence list, the Answer
Composer skips generation and returns the fixed insufficient-information
answer text with an empty source list and confidence exactly 0. -/
theorem answer_insufficient_on_empty_retrieval (embed : String → List Int)
    (sim : List Int → List Int → Nat) (index : List IndexedChunk)
    (cfg : RetrievalConfig) (generate : String → List String → String)
    (queryText : String) (scope : Scope)
    (h : retrieve embed sim index cfg queryText scope defaultChatK = []) :
    answer embed sim index cfg generate queryText scope =
      { answer := insufficientInfoAnswer, sources := [], confidence := 0 } := by
  simp [answer, h]

/-- Witness for claim C5: a chat query against an empty index retrieves
nothing and yields the fixed insufficient-information answer, no sources and
zero confidence. -/
theorem answer_insufficient_on_empty_retrieval_witness :
    retrieve (fun _ => [1]) (fun _ _ => 90) [] ⟨50⟩
      "What is our password policy?" ⟨1, none⟩ defaultChatK = [] ∧
    answer (fun _ => [1]) (fun _ _ => 90) [] ⟨50⟩ (fun _ _ => "generated")
      "What is our password policy?" ⟨1, none⟩ =
      { answer := insufficientInfoAnswer, sources := [], confidence := 0 } := by
  refine ⟨rfl, ?_⟩
  exact answer_insufficient_on_empty_retrieval (fun _ => [1]) (fun _ _ => 90)
    [] ⟨50⟩ (fun _ _ => "generated") "What is our password policy?" ⟨1, none⟩ rfl

/-- Claim C6: for distinct tenants, a retrieval query scoped to one tenant
never returns a chunk originating from a document owned by the other tenant:
whenever document ownership agrees with the index's tenant metadata, every
returned item's source document is owned by the querying tenant. -/
theorem retrieve_tenant_isolation (embed : String → List Int)
    (sim : List Int → List Int → Nat) (index : List IndexedChunk)
    (cfg : RetrievalConfig) (queryText : String) (scope : Scope) (k : Nat)
    (item : EvidenceItem) (owner : Nat → Nat) (B : Nat)
    (hAB : scope.tenantId ≠ B)
    (hown : ∀ e ∈ index, owner e.docId = e.tenantId)
    (h : item ∈ retrieve embed sim index cfg queryText scope k) :
    owner item.sourceDocId ≠ B := by
  obtain ⟨-, e, he, hscope, hdoc⟩ :=
    retrieve_mem_spec embed sim index cfg queryText scope k item h
  have ht : e.tenantId = scope.tenantId := by
    unfold matchesScope at hscope
    have hb := (Bool.and_eq_true _ _).mp hscope
    exact beq_iff_eq.mp hb.1
  rw [hdoc, hown e he, ht]
  exact hAB

/-- Witness for claim C6: with one tenant-1 entry in the index, ownership
mapping document 7 to tenant 1, a query scoped to tenant 1 returns an item
whose source document is not owned by tenant 2. -/
theorem retrieve_tenant_isolation_witness :
    (⟨1, none⟩ : Scope).tenantId ≠ 2 ∧
    (fun d => if d == 7 then 1 else 2)
        ((⟨"password text", 7, "Policy doc", 90, 0⟩ : EvidenceItem).sourceDocId)
      ≠ 2 := by
  refine ⟨by decide, ?_⟩
  exact retrieve_tenant_isolation (fun _ => [1]) (fun _ _ => 90)
    [⟨1, 7, "Policy doc", 1, none, "password text", [1]⟩] ⟨50⟩
    "password policy" ⟨1, none⟩ 5
    ⟨"password text", 7, "Policy doc", 90, 0⟩
    (fun d => if d == 7 then 1 else 2) 2
    (by decide) (by decide) (by decide)

/-- A re-evaluation refresh of an open Gap's severity, risk score and reason
preserves whether the Gap is open and which control it belongs to. -/
theorem openFor_refresh (v : GapVerdict) (g : Gap) :
    openFor v.controlId
      (if openFor v.controlId g then
        { g with severity := v.severity, riskScore := v.riskScore,
                 description := v.reason }
      else g) = openFor v.controlId g := by
  by_cases h : openFor v.controlId g
  · rw [if_pos h, h]
    simp only [openFor, isOpen, Bool.and_eq_true, bne_iff_ne, ne_eq,
      beq_iff_eq] at h ⊢
    exact h
  · rw [if_neg h]

/-- Refreshing the open Gaps of a control does not change the number of open
Gaps recorded for that control. -/
theorem countOpenFor_refresh (st : List Gap) (v : GapVerdict) :
    countOpenFor (st.map (fun g =>
      if openFor v.controlId g then
        { g with severity := v.severity, riskScore := v.riskScore,
                 description := v.reason }
      else g)) v.controlId = countOpenFor st v.controlId := by
  unfold countOpenFor
  rw [List.countP_map]
  refine List.countP_congr ?_
  intro g _
  simpa using openFor_refresh v g

/-- With an open Gap present and a non-COMPLIANT verdict, persistence takes
the refresh branch. -/
theorem persistVerdict_refresh_eq (st : List Gap) (n : Nat) (v : GapVerdict)
    (hA : st.any (openFor v.controlId) = true)
    (hC : (v.status == Status.COMPLIANT) = false) :
    persistVerdict st n v =
      (st.map (fun g =>
        if openFor v.controlId g then
          { g with severity := v.severity, riskScore := v.riskScore,
                   description := v.reason }
        else g), n) := by
  unfold persistVerdict
  rw [hA, hC]
  simp

/-- With no open Gap present and a non-COMPLIANT verdict, persistence takes
the create branch. -/
theorem persistVerdict_create_eq (st : List Gap) (n : Nat) (v : GapVerdict)
    (hA : st.any (openFor v.controlId) = false)
    (hC : (v.status == Status.COMPLIANT) = false) :
    persistVerdict st n v = (st ++ [newGapOf n v], n + 1) := by
  unfold persistVerdict
  rw [hA, hC]
  simp

/-- Claim C7: persisting a non-COMPLIANT verdict for a control that already
has an open Gap never creates a second Gap: it refreshes the open Gap's
severity, risk score and reason, leaves every workflow status unchanged, and
running the persistence twice in a row on an unchanged verdict leaves exactly
one open Gap for the control (starting from at most one). -/
theorem persist_verdict_no_duplicate_gap (st : List Gap) (n : Nat)
    (v : GapVerdict) (hnc : v.status ≠ Status.COMPLIANT) :
    countOpenFor (persistVerdict (persistVerdict st n v).1
        (persistVerdict st n v).2 v).1 v.controlId =
      max (countOpenFor st v.controlId) 1 ∧
    (countOpenFor st v.controlId ≠ 0 →
      (persistVerdict st n v).1.map Gap.status = st.map Gap.status) ∧
    (countOpenFor st v.controlId ≠ 0 →
      ∀ g ∈ (persistVerdict st n v).1, openFor v.controlId g = true →
        g.severity = v.severity ∧ g.riskScore = v.riskScore ∧
          g.description = v.reason) := by
  have hC : (v.status == Status.COMPLIANT) = false := by
    simpa using hnc
  cases hA : st.any (openFor v.controlId) with
  | false =>
    have hzero : countOpenFor st v.controlId = 0 := by
      unfold countOpenFor
      rw [List.countP_eq_zero]
      exact List.any_eq_false.mp hA
    have h1 : persistVerdict st n v = (st ++ [newGapOf n v], n + 1) :=
      persistVerdict_create_eq st n v hA hC
    have hnew : openFor v.controlId (newGapOf n v) = true := by
      simp [openFor, isOpen, newGapOf]
    have hcnt1 : countOpenFor (persistVerdict st n v).1 v.controlId = 1 := by
      rw [h1]
      unfold countOpenFor at hzero ⊢
      rw [List.countP_append, hzero]
      simp [hnew]
    have hA2 : (persistVerdict st n v).1.any (openFor v.controlId) = true := by
      rw [h1]
      rw [List.any_eq_true]
      exact ⟨newGapOf n v,
        List.mem_append_right st (List.mem_singleton.mpr rfl), hnew⟩
    have h2 : persistVerdict (persistVerdict st n v).1 (persistVerdict st n v).2 v =
        ((persistVerdict st n v).1.map (fun g =>
          if openFor v.controlId g then
            { g with severity := v.severity, riskScore := v.riskScore,
                     description := v.reason }
          else g), (persistVerdict st n v).2) :=
      persistVerdict_refresh_eq _ _ v hA2 hC
    refine ⟨?_, ?_, ?_⟩
    · rw [h2]
      simp only
      rw [countOpenFor_refresh, hcnt1, hzero]
      rfl
    · intro hcontra
      exact absurd hzero hcontra
    · intro hcontra
      exact absurd hzero hcontra
  | true =>
    have hpos : countOpenFor st v.controlId ≠ 0 := by
      obtain ⟨g, hg, hpg⟩ := List.any_eq_true.mp hA
      unfold countOpenFor
      have := List.countP_pos_iff.mpr ⟨g, hg, hpg⟩
      omega
    have h1 : persistVerdict st n v =
        (st.map (fun g =>
          if openFor v.controlId g then
            { g with severity := v.severity, riskScore := v.riskScore,
                     description := v.reason }
          else g), n) :=
      persistVerdict_refresh_eq st n v hA hC
    have hcnt1 : countOpenFor (persistVerdict st n v).1 v.controlId =
        countOpenFor st v.controlId := by
      rw [h1]
      exact countOpenFor_refresh st v
    have hA2 : (persistVerdict st n v).1.any (openFor v.controlId) = true := by
      rw [List.any_eq_true]
      have hlt : 0 < countOpenFor (persistVerdict st n v).1 v.controlId := by
        rw [hcnt1]; omega
      exact List.countP_pos_iff.mp hlt
    have h2 : persistVerdict (persistVerdict st n v).1 (persistVerdict st n v).2 v =
        ((persistVerdict st n v).1.map (fun g =>
          if openFor v.controlId g then
            { g with severity := v.severity, riskScore := v.riskScore,
                     description := v.reason }
          else g), (persistVerdict st n v).2) :=
      persistVerdict_refresh_eq _ _ v hA2 hC
    refine ⟨?_, ?_, ?_⟩
    · rw [h2]
      simp only
      rw [countOpenFor_refresh, hcnt1]
      exact (max_eq_left (Nat.one_le_iff_ne_zero.mpr hpos)).symm
    · intro _
      rw [h1]
      simp only [List.map_map]
      refine List.map_congr_left ?_
      intro g _
      by_cases h : openFor v.controlId g <;> simp [h]
    · intro _ g hg hpg
      rw [h1] at hg
      simp only at hg
      obtain ⟨g0, _, hupd⟩ := List.mem_map.mp hg
      by_cases hp0 : openFor v.controlId g0
      · rw [if_pos hp0] at hupd
        rw [← hupd]
        exact ⟨rfl, rfl, rfl⟩
      · rw [if_neg hp0] at hupd
        rw [← hupd] at hpg
        exact absurd hpg (by simpa using hp0)

/-- Witness for claim C7: starting from no Gaps, persisting the same HIGH gap
verdict twice leaves exactly one open Gap for the control. -/
theorem persist_verdict_no_duplicate_gap_witness :
    (⟨5, Status.GAP, Severity.HIGH, 75, "no policy", []⟩ : GapVerdict).status ≠
      Status.COMPLIANT ∧
    countOpenFor (persistVerdict
        (persistVerdict [] 0 ⟨5, Status.GAP, Severity.HIGH, 75, "no policy", []⟩).1
        (persistVerdict [] 0 ⟨5, Status.GAP, Severity.HIGH, 75, "no policy", []⟩).2
        ⟨5, Status.GAP, Severity.HIGH, 75, "no policy", []⟩).1 5 = 1 := by
  refine ⟨by decide, ?_⟩
  have h := persist_verdict_no_duplicate_gap [] 0
    ⟨5, Status.GAP, Severity.HIGH, 75, "no policy", []⟩ (by decide)
  simpa using h.1

/-- The warning text always carries its fixed non-empty prefix. -/
theorem warningText_ne_empty (codes : List String) : warningText codes ≠ "" := by
  intro h
  have h2 := congrArg String.data h
  simp [warningText] at h2

/-- Claim C8: when some but not all per-control evaluations fail, the batch
endpoint returns the successful results together with a warning enumerating
the failed controls, and the frontend renders the warning card. -/
theorem batch_partial_results_with_warning
    (evalOne : Control → Option GapVerdict) (fw : String)
    (controls : List Control) (cf cs : Control) (vs : GapVerdict)
    (hf : cf ∈ controls) (hfe : evalOne cf = none)
    (hs : cs ∈ controls) (hse : evalOne cs = some vs) :
    toControlResult cs vs ∈ (runGapAnalysis evalOne fw controls).results ∧
    (runGapAnalysis evalOne fw controls).warning =
      some (warningText
        ((controls.filter (fun c => (evalOne c).isNone)).map (fun c => c.code))) ∧
    showWarningCard (runGapAnalysis evalOne fw controls).warning = true := by
  have hmem : toControlResult cs vs ∈
      controls.filterMap (fun c => (evalOne c).map (toControlResult c)) := by
    rw [List.mem_filterMap]
    exact ⟨cs, hs, by rw [hse]; rfl⟩
  have hfailmem : cf.code ∈
      (controls.filter (fun c => (evalOne c).isNone)).map (fun c => c.code) :=
    List.mem_map_of_mem _ (List.mem_filter.mpr ⟨hf, by simp [hfe]⟩)
  have hfail : ((controls.filter (fun c => (evalOne c).isNone)).map
      (fun c => c.code)).isEmpty = false := by
    rcases hl : (controls.filter (fun c => (evalOne c).isNone)).map
        (fun c => c.code) with _ | ⟨a, as⟩
    · rw [hl] at hfailmem
      simp at hfailmem
    · rw [hl]
      rfl
  have hwarn : (runGapAnalysis evalOne fw controls).warning =
      some (warningText
        ((controls.filter (fun c => (evalOne c).isNone)).map (fun c => c.code))) := by
    simp [runGapAnalysis, hfail]
  refine ⟨hmem, hwarn, ?_⟩
  rw [hwarn]
  unfold showWarningCard
  simpa using warningText_ne_empty _

/-- Witness for claim C8: two controls, one evaluation failing and one
succeeding, produce the successful row plus a rendered warning naming the
failed control. -/
theorem batch_partial_results_with_warning_witness :
    ((fun c => if c.id == 1 then
        some (⟨1, Status.GAP, Severity.HIGH, 75, "thin evidence", []⟩ : GapVerdict)
      else none) :
        Control → Option GapVerdict)
      (⟨2, 1, "A.5.2", "n2", "d2", 100⟩ : Control) = none ∧
    toControlResult ⟨1, 1, "A.5.1", "n1", "d1", 100⟩
        ⟨1, Status.GAP, Severity.HIGH, 75, "thin evidence", []⟩ ∈
      (runGapAnalysis
        (fun c => if c.id == 1 then
          some ⟨1, Status.GAP, Severity.HIGH, 75, "thin evidence", []⟩
        else none)
        "ISO 27001"
        [⟨1, 1, "A.5.1", "n1", "d1", 100⟩, ⟨2, 1, "A.5.2", "n2", "d2", 100⟩]).results ∧
    showWarningCard
      (runGapAnalysis
        (fun c => if c.id == 1 then
          some ⟨1, Status.GAP, Severity.HIGH, 75, "thin evidence", []⟩
        else none)
        "ISO 27001"
        [⟨1, 1, "A.5.1", "n1", "d1", 100⟩, ⟨2, 1, "A.5.2", "n2", "d2", 100⟩]).warning
      = true := by
  refine ⟨rfl, ?_, ?_⟩
  · exact (batch_partial_results_with_warning
      (fun c => if c.id == 1 then
        some ⟨1, Status.GAP, Severity.HIGH, 75, "thin evidence", []⟩
      else none)
      "ISO 27001"
      [⟨1, 1, "A.5.1", "n1", "d1", 100⟩, ⟨2, 1, "A.5.2", "n2", "d2", 100⟩]
      ⟨2, 1, "A.5.2", "n2", "d2", 100⟩ ⟨1, 1, "A.5.1", "n1", "d1", 100⟩
      ⟨1, Status.GAP, Severity.HIGH, 75, "thin evidence", []⟩
      (by simp) rfl (by simp) rfl).1
  · exact (batch_partial_results_with_warning
      (fun c => if c.id == 1 then
        some ⟨1, Status.GAP, Severity.HIGH, 75, "thin evidence", []⟩
      else none)
      "ISO 27001"
      [⟨1, 1, "A.5.1", "n1", "d1", 100⟩, ⟨2, 1, "A.5.2", "n2", "d2", 100⟩]
      ⟨2, 1, "A.5.2", "n2", "d2", 100⟩ ⟨1, 1, "A.5.1", "n1", "d1", 100⟩
      ⟨1, Status.GAP, Severity.HIGH, 75, "thin evidence", []⟩
      (by simp) rfl (by simp) rfl).2.2

/-- Claim C9: the Chunker is deterministic: two runs on the same input text
and the same chunk-size and overlap parameters produce exactly the same
sequence of chunk boundaries. -/
theorem chunker_deterministic (t1 t2 : String) (s1 s2 o1 o2 : Nat)
    (ht : t1 = t2) (hs : s1 = s2) (ho : o1 = o2) :
    chunkText t1 s1 o1 = chunkText t2 s2 o2 := by
  rw [ht, hs, ho]

/-- Witness for claim C9: two runs of the Chunker on the same concrete text
and parameters agree. -/
theorem chunker_deterministic_witness :
    ("The policy mandates rotation. Access is reviewed." : String) =
      "The policy mandates rotation. Access is reviewed." ∧
    chunkText "The policy mandates rotation. Access is reviewed." 20 4 =
      chunkText "The policy mandates rotation. Access is reviewed." 20 4 :=
  ⟨rfl, chunker_deterministic
    "The policy mandates rotation. Access is reviewed."
    "The policy mandates rotation. Access is reviewed." 20 20 4 4 rfl rfl rfl⟩

/-- Summing per-framework row counts equals counting the concatenated rows. -/
theorem fw_sum_lengths (fws : List FrameworkBlock) :
    (fws.map (fun fw => (fw.results.getD []).length)).sum =
      ((fws.map (fun fw => fw.results.getD [])).flatten).length := by
  induction fws with
  | nil => rfl
  | cons fw fws ih => simp [ih]

/-- Summing per-framework filtered row counts equals filtering the
concatenated rows. -/
theorem fw_sum_filter_lengths (p : ResultRow → Bool) (fws : List FrameworkBlock) :
    (fws.map (fun fw => ((fw.results.getD []).filter p).length)).sum =
      (((fws.map (fun fw => fw.results.getD [])).flatten).filter p).length := by
  induction fws with
  | nil => rfl
  | cons fw fws ih => simp [List.filter_append, ih]

/-- The rows satisfying a predicate and those failing it partition a list. -/
theorem filter_not_length_add (p : ResultRow → Bool) (l : List ResultRow) :
    (l.filter p).length + (l.filter (fun a => !(p a))).length = l.length := by
  induction l with
  | nil => rfl
  | cons a l ih =>
    by_cases h : p a <;> simp [List.filter_cons, h] <;> omega

/-- Claim C10: on a gap-analysis response (which carries no precomputed
totals), the frontend summary counts as Gaps Identified exactly the result
rows whose status is the string GAP, and displays as Compliant Controls the
number of rows with any other status — in particular every PARTIAL row is
counted as compliant. -/
theorem gap_summary_counts_partial_as_compliant (r : GapAnalysisResponse)
    (h1 : r.total_controls = none) (h2 : r.gaps_identified = none)
    (h3 : r.total_gaps = none) :
    (computeSummary r).gapsIdentified =
      ((countedRows r).filter rowIsGap).length ∧
    (computeSummary r).compliantControls =
      (((countedRows r).filter (fun row => !(rowIsGap row))).length : Int) := by
  have hsum := fw_sum_lengths (frameworksToCount r)
  have hfil := fw_sum_filter_lengths rowIsGap (frameworksToCount r)
  have hpart := filter_not_length_add rowIsGap
    ((frameworksToCount r).map (fun fw => fw.results.getD [])).flatten
  unfold computeSummary countedRows
  rw [h1, h2, h3]
  simp only [jsNum, jsOrNat]
  constructor
  · simpa using hfil
  · simp only [beq_self_eq_true, Bool.true_or, if_true]
    rw [hsum, hfil]
    omega

/-- Witness for claim C10: a response with one GAP row and one PARTIAL row
reports one gap and counts the PARTIAL row among the compliant controls. -/
theorem gap_summary_counts_partial_as_compliant_witness :
    (computeSummary
        ⟨none, none, none, some "ISO 27001",
          some [⟨some "A.5.1", some "GAP", some "HIGH", some 75, some "r1"⟩,
                ⟨some "A.5.2", some "PARTIAL", some "MEDIUM", some 50, some "r2"⟩],
          none, none, none⟩).gapsIdentified =
      ((countedRows
        ⟨none, none, none, some "ISO 27001",
          some [⟨some "A.5.1", some "GAP", some "HIGH", some 75, some "r1"⟩,
                ⟨some "A.5.2", some "PARTIAL", some "MEDIUM", some 50, some "r2"⟩],
          none, none, none⟩).filter rowIsGap).length ∧
    (computeSummary
        ⟨none, none, none, some "ISO 27001",
          some [⟨some "A.5.1", some "GAP", some "HIGH", some 75, some "r1"⟩,
                ⟨some "A.5.2", some "PARTIAL", some "MEDIUM", some 50, some "r2"⟩],
          none, none, none⟩).compliantControls =
      (((countedRows
        ⟨none, none, none, some "ISO 27001",
          some [⟨some "A.5.1", some "GAP", some "HIGH", some 75, some "r1"⟩,
                ⟨some "A.5.2", some "PARTIAL", some "MEDIUM", some 50, some "r2"⟩],
          none, none, none⟩).filter (fun row => !(rowIsGap row))).length : Int) :=
  gap_summary_counts_partial_as_compliant
    ⟨none, none, none, some "ISO 27001",
      some [⟨some "A.5.1", some "GAP", some "HIGH", some 75, some "r1"⟩,
            ⟨some "A.5.2", some "PARTIAL", some "MEDIUM", some 50, some "r2"⟩],
      none, none, none⟩ rfl rfl rfl

end Sanchalan
